import Mathlib

/-!
Verification of the loggregator ingestion-to-delivery pipeline.

Shallow embedding of:
- `src/doppler/sinks/syslog/syslog_sink.go` (the `SyslogSink` run loop,
  `Disconnect`, `sendLogMessage`, `messagePriorityValue`),
- `src/metron/eventlistener/event_listener.go` (the `EventListener` read
  loop, `Stop`, heartbeat-requester interaction),
- the Overflow Buffer (`sinks.RunTruncatingBuffer`), whose implementation
  is not part of the sources and is therefore modelled from the spec.

The sink's run loop is embedded as a deterministic step function over an
explicit state, driven by an input alphabet that records the environment's
choices (connect results, items arriving from the buffer, write results,
and which arm of each Go `select` fires). Observable effects (invocations
of the error callback and of the Writer's `Write`) are returned as an
output list per step.
-/

/-- Event-kind discriminant of `events.Envelope` (`GetEventType`). Only
equality with `Envelope_LogMessage` is inspected by the code under
verification; the other constructors stand for the remaining kinds. -/
inductive EventType where
  | logMessage
  | counterEvent
  | valueMetric
  | heartbeat
  | httpStart
deriving Repr, DecidableEq

/-- Message-type discriminant of `events.LogMessage` (`GetMessageType`).
`out` and `err` are `LogMessage_OUT` and `LogMessage_ERR`; `other` stands
for any further enum value, which the code sends to the `default` branch. -/
inductive MessageType where
  | out
  | err
  | other
deriving Repr, DecidableEq

/-- The fields of `events.LogMessage` read by the sink: `GetMessage`,
`GetMessageType`, `GetSourceType`, `GetSourceInstance`, `Timestamp`. -/
structure LogMessage where
  message : List Nat
  messageType : MessageType
  sourceType : String
  sourceInstance : String
  timestamp : Int
deriving Repr, DecidableEq

/-- The fields of `events.Envelope` read by the sink: the event kind and,
for log-kind envelopes, the embedded log message (`GetLogMessage`). -/
structure Envelope where
  eventType : EventType
  logMessage : LogMessage
deriving Repr, DecidableEq

/-- `messagePriorityValue` from `syslog_sink.go`: `LogMessage_OUT` maps to
14, `LogMessage_ERR` to 11, anything else to -1. -/
def messagePriorityValue (msg : LogMessage) : Int :=
  match msg.messageType with
  | MessageType.out => 14
  | MessageType.err => 11
  | MessageType.other => -1

/-- Identity fields of a `SyslogSink` used by the run loop: `appId` (the
owning stream) and `drainUrl` (the destination identifier). -/
structure SyslogSink where
  appId : String
  drainUrl : String
deriving Repr, DecidableEq

/-- Mutable local state of `SyslogSink.Run`: the `connected` flag, the
`numberOfTries` counter, and whether the loop has returned. -/
structure RunState where
  connected : Bool
  numberOfTries : Nat
  stopped : Bool
deriving Repr, DecidableEq

/-- State of the run loop on entry: `connected := false`,
`numberOfTries := 0`. -/
def initialRunState : RunState :=
  { connected := false, numberOfTries := 0, stopped := false }

/-- Observable effects of one run-loop iteration: an invocation of the
error callback `handleSendError(errorMessage, appId, drainUrl)`, or an
invocation of the Writer's `Write(priority, message, sourceType,
sourceInstance, timestamp)`. -/
inductive SinkOutput where
  | errorCallback (message streamId destinationId : String)
  | write (priority : Int) (message : List Nat)
      (sourceType sourceInstance : String) (timestamp : Int)
deriving Repr, DecidableEq

/-- Whether an output is an invocation of the error callback. -/
def SinkOutput.isErrorCallback : SinkOutput → Bool
  | SinkOutput.errorCallback _ _ _ => true
  | _ => false

/-- Whether an output is an invocation of the Writer's `Write`. -/
def SinkOutput.isWrite : SinkOutput → Bool
  | SinkOutput.write _ _ _ _ _ => true
  | _ => false

/-- `sendLogMessage` from `syslog_sink.go`: the single `Write` invocation
it performs, with the priority computed by `messagePriorityValue`. -/
def sendLogMessage (m : LogMessage) : SinkOutput :=
  SinkOutput.write (messagePriorityValue m) m.message m.sourceType
    m.sourceInstance m.timestamp

/-- The error message built by `fmt.Sprintf` on a connect failure
(`"Syslog Sink %s: Error when dialing out. Backing off for %v. Err: %v"`).
The sleep duration is a natural number of time units. -/
def connectErrorMsg (drainUrl : String) (sleepDuration : Nat) (err : String) : String :=
  "Syslog Sink " ++ drainUrl ++ ": Error when dialing out. Backing off for "
    ++ toString sleepDuration ++ ". Err: " ++ err

/-- Outcome of the `select` in the connected part of the loop: the
disconnect channel fired, the buffer's output channel was closed, or an
envelope arrived from the buffer (`writeOk` records whether the Writer's
`Write` will succeed on it, if invoked). -/
inductive SelectOutcome where
  | disconnect
  | bufferClosed
  | item (e : Envelope) (writeOk : Bool)
deriving Repr, DecidableEq

/-- One environment event driving the run loop. `connect err disc`: the
`Connect()` call returned `err` (`none` for success); when it failed,
`disc` records whether the disconnect signal fired before the backoff
timer during the ensuing wait. `select o`: the outcome of the main
`select`. -/
inductive SinkInput where
  | connect (err : Option String) (disc : Bool)
  | select (o : SelectOutcome)
deriving Repr, DecidableEq

/-- One iteration of the `for` loop of `SyslogSink.Run`, split at the
point where a successful `Connect()` falls through into the `select`
(nothing observable happens between the two, so the split is faithful).
A `connect` event applies only in the `!connected` phase and a `select`
event only in the `connected` phase; out-of-phase events and events after
the loop has returned are ignored. -/
def sinkStep (s : SyslogSink) (backoff : Nat → Nat) (st : RunState)
    (i : SinkInput) : RunState × List SinkOutput :=
  if st.stopped then (st, []) else
  match i with
  | SinkInput.connect err disc =>
    if st.connected then (st, [])
    else
      match err with
      | none => ({ st with connected := true }, [])
      | some e =>
        let sleepDuration := backoff st.numberOfTries
        let out := [SinkOutput.errorCallback
          (connectErrorMsg s.drainUrl sleepDuration e) s.appId s.drainUrl]
        if disc then ({ st with stopped := true }, out)
        else ({ st with numberOfTries := st.numberOfTries + 1 }, out)
  | SinkInput.select o =>
    if st.connected then
      match o with
      | SelectOutcome.disconnect => ({ st with stopped := true }, [])
      | SelectOutcome.bufferClosed => ({ st with stopped := true }, [])
      | SelectOutcome.item e writeOk =>
        if e.eventType = EventType.logMessage then
          let out := [sendLogMessage e.logMessage]
          if writeOk then
            ({ st with numberOfTries := 0, connected := true }, out)
          else
            ({ st with numberOfTries := st.numberOfTries + 1,
                       connected := false }, out)
        else (st, [])
    else (st, [])

/-- Run the loop over a whole trace of environment events, accumulating
the observable outputs. -/
def runTrace (s : SyslogSink) (backoff : Nat → Nat) (st : RunState) :
    List SinkInput → RunState × List SinkOutput
  | [] => (st, [])
  | i :: rest =>
    let r := sinkStep s backoff st i
    let rec2 := runTrace s backoff r.1 rest
    (rec2.1, r.2 ++ rec2.2)

/-- The filter stage spawned by `SyslogSink.Run`: it forwards into the
buffer exactly the envelopes whose event type is `Envelope_LogMessage`. -/
def filterEnvelopes (input : List Envelope) : List Envelope :=
  input.filter (fun e => e.eventType = EventType.logMessage)

/-- A sample sink used in concrete evaluations. -/
def sampleSink : SyslogSink :=
  { appId := "app-1", drainUrl := "syslog://example.com:514" }

/-- A sample log-kind envelope used in concrete evaluations. -/
def sampleLogEnvelope : Envelope :=
  { eventType := EventType.logMessage,
    logMessage := { message := [104, 105], messageType := MessageType.out,
                    sourceType := "APP", sourceInstance := "0",
                    timestamp := 123 } }

/-- A sample non-log envelope (e.g. a dropped-message counter metric)
used in concrete evaluations. -/
def sampleCounterEnvelope : Envelope :=
  { eventType := EventType.counterEvent,
    logMessage := { message := [], messageType := MessageType.other,
                    sourceType := "", sourceInstance := "",
                    timestamp := 0 } }

/-! ### Disconnect: `sync.Once` guarding `close(disconnectChannel)` -/

/-- State touched by `SyslogSink.Disconnect`: the `sync.Once` guard, the
disconnect channel's closed flag, and an instrumentation counter recording
how many times `close` was actually executed on the channel. -/
structure DisconnectState where
  onceDone : Bool
  channelClosed : Bool
  closeCount : Nat
deriving Repr, DecidableEq

/-- State of a freshly constructed sink (`NewSyslogSink`): the `Once` has
not fired and the channel is open. -/
def initialDisconnectState : DisconnectState :=
  { onceDone := false, channelClosed := false, closeCount := 0 }

/-- Go `close` on a channel: faults (panics) when the channel is already
closed, otherwise closes it. -/
def closeChannel (st : DisconnectState) : Except String DisconnectState :=
  if st.channelClosed then Except.error "close of closed channel"
  else Except.ok { st with channelClosed := true, closeCount := st.closeCount + 1 }

/-- `SyslogSink.Disconnect`: `disconnectOnce.Do(func() { close(disconnectChannel) })`.
The `sync.Once` runs the closure only on the first call. -/
def disconnect (st : DisconnectState) : Except String DisconnectState :=
  if st.onceDone then Except.ok st
  else (closeChannel st).map (fun st2 => { st2 with onceDone := true })

/-- `n` successive calls to `Disconnect`, propagating any fault. -/
def disconnectN : Nat → DisconnectState → Except String DisconnectState
  | 0, st => Except.ok st
  | n + 1, st => (disconnect st).bind (disconnectN n)

/-! ### EventListener: read loop, heartbeat requester, Stop -/

/-- A transport-level sender identity (`net.Addr`, host:port). -/
abbrev Addr := String

/-- One UDP datagram: sender address and payload bytes. -/
structure Datagram where
  addr : Addr
  payload : List Nat
deriving Repr, DecidableEq

/-- The `heartbeatRequester` collaborator interface, over an abstract
tracker state `σ`: `KnownAndReset` reports whether the address is
currently tracked (resetting its timer inside `σ`), and `startTracking`
is the effect on `σ` of the `Start(addr, conn)` session the listener
spawns. -/
structure HeartbeatRequester (σ : Type) where
  knownAndReset : σ → Addr → Bool × σ
  startTracking : σ → Addr → σ

/-- Maximum theoretical UDP payload size; the length of the scratch
`readBuffer` allocated by `EventListener.Start`. -/
def maxUDPSize : Nat := 65535

/-- State threaded through the read loop of `EventListener.Start`: the
shared scratch read buffer, the payloads published to `dataChannel` so
far, the two atomic counters, the `Start` invocations made on the
requester, and the requester's own state. -/
structure EventListenerState (σ : Type) where
  readBuffer : List Nat
  published : List (List Nat)
  receivedMessageCount : Nat
  receivedByteCount : Nat
  startCalls : List Addr
  requesterState : σ

/-- Listener state right after the socket is bound: a fresh zeroed
scratch buffer of `maxUDPSize` bytes, nothing published, zero counters. -/
def initialListenerState (rs : σ) : EventListenerState σ :=
  { readBuffer := List.replicate maxUDPSize 0, published := [],
    receivedMessageCount := 0, receivedByteCount := 0,
    startCalls := [], requesterState := rs }

/-- `connection.ReadFrom(readBuffer)`: writes the datagram into the front
of the scratch buffer (truncating to the buffer's length) and returns the
byte count together with the updated buffer. -/
def readFromInto (buffer payload : List Nat) : Nat × List Nat :=
  let readCount := min payload.length buffer.length
  (readCount, payload.take readCount ++ buffer.drop readCount)

/-- One iteration of the read loop of `EventListener.Start`: read into
the scratch buffer, copy the first `readCount` bytes into a fresh
right-sized `readData` slice, bump both counters, publish `readData`,
then call `KnownAndReset` and spawn `Start` exactly when it returned
false. -/
def listenerStep (r : HeartbeatRequester σ) (st : EventListenerState σ)
    (d : Datagram) : EventListenerState σ :=
  let rd := readFromInto st.readBuffer d.payload
  let readData := rd.2.take rd.1
  let kr := r.knownAndReset st.requesterState d.addr
  { readBuffer := rd.2,
    published := st.published ++ [readData],
    receivedMessageCount := st.receivedMessageCount + 1,
    receivedByteCount := st.receivedByteCount + rd.1,
    startCalls := if kr.1 then st.startCalls else st.startCalls ++ [d.addr],
    requesterState := if kr.1 then kr.2 else r.startTracking kr.2 d.addr }

/-- The read loop over a sequence of arriving datagrams (the queue-has-room
regime: every publish succeeds). -/
def listenerRun (r : HeartbeatRequester σ) (st : EventListenerState σ) :
    List Datagram → EventListenerState σ
  | [] => st
  | d :: ds => listenerRun r (listenerStep r st d) ds

/-- Modelled from the spec: a concrete heartbeat tracker satisfying the
§6 collaborator contract, whose implementation is not under src/. Its
state is the set of currently tracked addresses; `KnownAndReset` reports
membership (timer reset does not change the set) and a `Start` session
adds the address to the tracked set. -/
def specRequester : HeartbeatRequester (List Addr) :=
  { knownAndReset := fun s a => (a ∈ s, s),
    startTracking := fun s a => a :: s }

/-- The `connection` field of an `EventListener` as seen by `Start` (which
assigns it under the lock) and `Stop`: `none` is Go's nil zero value. -/
structure EventListenerConn where
  connection : Option Unit
deriving Repr, DecidableEq

/-- An `EventListener` as returned by `New`: the `connection` field still
holds its nil zero value. -/
def newEventListener : EventListenerConn := { connection := none }

/-- `EventListener.Start` assigning the bound socket to `connection`
under the lock. -/
def eventListenerAssignConn (_st : EventListenerConn) : EventListenerConn :=
  { connection := some () }

/-- `EventListener.Stop`: `eventListener.connection.Close()`. Calling a
method through a nil handle faults (nil pointer dereference panic). -/
def eventListenerStop (st : EventListenerConn) : Except String EventListenerConn :=
  match st.connection with
  | none => Except.error "invalid memory address or nil pointer dereference"
  | some _ => Except.ok st

/-! ### Overflow Buffer (spec-modelled) -/

/-- What a consumer draining the Overflow Buffer observes: a relayed item,
or the synthetic non-log notification summarizing how many items were
dropped. -/
inductive BufferOut (α : Type) where
  | item (a : α)
  | droppedNotification (count : Nat)
deriving Repr, DecidableEq

/-- Modelled from the spec: the Overflow Buffer state
(`sinks.RunTruncatingBuffer`, whose implementation is not under src/) —
a bounded FIFO of pending items plus the count of items dropped since the
last notification (§4.3). -/
structure TruncatingBuffer (α : Type) where
  capacity : Nat
  pending : List α
  droppedCount : Nat
deriving Repr, DecidableEq

/-- Modelled from the spec: an Overflow Buffer of the given capacity with
nothing pending. -/
def emptyBuffer (α : Type) (capacity : Nat) : TruncatingBuffer α :=
  { capacity := capacity, pending := [], droppedCount := 0 }

/-- Modelled from the spec: accepting one item while the consumer stalls.
When the buffer is full the oldest pending item is evicted (FIFO) and the
dropped count bumped; the input side is never blocked. -/
def TruncatingBuffer.push (b : TruncatingBuffer α) (a : α) : TruncatingBuffer α :=
  if b.pending.length < b.capacity then { b with pending := b.pending ++ [a] }
  else { b with pending := b.pending.tail ++ [a],
                droppedCount := b.droppedCount + 1 }

/-- Modelled from the spec: accepting a burst of items with a stalled
consumer. -/
def TruncatingBuffer.feedAll (b : TruncatingBuffer α) (xs : List α) :
    TruncatingBuffer α :=
  xs.foldl TruncatingBuffer.push b

/-- Modelled from the spec: what the consumer observes once it drains the
buffer — one dropped-count notification (when anything was dropped,
batched per drain per §4.3) followed by the surviving pending items. -/
def TruncatingBuffer.drain (b : TruncatingBuffer α) : List (BufferOut α) :=
  (if b.droppedCount = 0 then [] else [BufferOut.droppedNotification b.droppedCount])
    ++ b.pending.map BufferOut.item

/-! ### Helper lemmas -/

/-- A `Disconnect` call on a sink whose `Once` has already fired is a
no-op, for any number of repetitions. -/
theorem disconnectN_done (n : Nat) :
    disconnectN n { onceDone := true, channelClosed := true, closeCount := 1 }
      = Except.ok { onceDone := true, channelClosed := true, closeCount := 1 } := by
  induction n with
  | zero => rfl
  | succ m ih =>
    simp only [disconnectN, disconnect, if_pos, Except.bind]
    exact ih

/-- Pushing into the Overflow Buffer preserves the capacity bound on the
pending items and leaves the capacity itself unchanged. -/
theorem truncBuffer_push_length (b : TruncatingBuffer α) (a : α)
    (hcap : 0 < b.capacity) (h : b.pending.length ≤ b.capacity) :
    (b.push a).pending.length ≤ b.capacity ∧ (b.push a).capacity = b.capacity := by
  unfold TruncatingBuffer.push
  by_cases hlt : b.pending.length < b.capacity
  · simp [hlt]
    omega
  · have heq : b.pending.length = b.capacity := by omega
    simp [hlt, List.length_tail]
    omega

/-- Feeding any burst into the Overflow Buffer preserves the capacity
bound. -/
theorem truncBuffer_feedAll_length (xs : List α) (b : TruncatingBuffer α)
    (hcap : 0 < b.capacity) (h : b.pending.length ≤ b.capacity) :
    (b.feedAll xs).pending.length ≤ b.capacity
    ∧ (b.feedAll xs).capacity = b.capacity := by
  induction xs generalizing b with
  | nil => exact ⟨h, rfl⟩
  | cons a as ih =>
    have hp := truncBuffer_push_length b a hcap h
    have hrec := ih (b.push a) (hp.2 ▸ hcap) (hp.2 ▸ hp.1)
    exact ⟨hp.2 ▸ hrec.1, hp.2 ▸ hrec.2⟩

/-! ### Claims -/

/-- Claim C9: every log-kind envelope the sink sends goes to the Writer's
`Write` with the priority computed by `messagePriorityValue` from the
message type alone — 14 for OUT, 11 for ERR, -1 otherwise — together with
the envelope's message bytes, source type, source instance and
timestamp. -/
theorem C9_write_priority (s : SyslogSink) (backoff : Nat → Nat)
    (st : RunState) (e : Envelope) (writeOk : Bool)
    (h1 : st.stopped = false) (h2 : st.connected = true)
    (h3 : e.eventType = EventType.logMessage) :
    (sinkStep s backoff st (SinkInput.select (SelectOutcome.item e writeOk))).2
      = [SinkOutput.write (messagePriorityValue e.logMessage)
          e.logMessage.message e.logMessage.sourceType
          e.logMessage.sourceInstance e.logMessage.timestamp]
    ∧ (∀ m : LogMessage, m.messageType = MessageType.out → messagePriorityValue m = 14)
    ∧ (∀ m : LogMessage, m.messageType = MessageType.err → messagePriorityValue m = 11)
    ∧ (∀ m : LogMessage, m.messageType = MessageType.other → messagePriorityValue m = -1) := by
  refine ⟨?_, ?_, ?_, ?_⟩
  · cases writeOk <;> simp [sinkStep, h1, h2, h3, sendLogMessage]
  · intro m hm; simp [messagePriorityValue, hm]
  · intro m hm; simp [messagePriorityValue, hm]
  · intro m hm; simp [messagePriorityValue, hm]

/-- Claim C9 witness: the theorem applied to a concrete connected state
and a concrete OUT-type log envelope. -/
theorem C9_write_priority_witness :
    (sinkStep sampleSink (fun n => 2 ^ n)
        { connected := true, numberOfTries := 0, stopped := false }
        (SinkInput.select (SelectOutcome.item sampleLogEnvelope true))).2
      = [SinkOutput.write (messagePriorityValue sampleLogEnvelope.logMessage)
          sampleLogEnvelope.logMessage.message sampleLogEnvelope.logMessage.sourceType
          sampleLogEnvelope.logMessage.sourceInstance sampleLogEnvelope.logMessage.timestamp]
    ∧ (∀ m : LogMessage, m.messageType = MessageType.out → messagePriorityValue m = 14)
    ∧ (∀ m : LogMessage, m.messageType = MessageType.err → messagePriorityValue m = 11)
    ∧ (∀ m : LogMessage, m.messageType = MessageType.other → messagePriorityValue m = -1) :=
  C9_write_priority sampleSink (fun n => 2 ^ n)
    { connected := true, numberOfTries := 0, stopped := false }
    sampleLogEnvelope true rfl rfl rfl

/-- Claim C10: calling `Stop` on an Ingestion Listener fresh from `New`,
before `Start` has assigned the bound socket to `connection`, dereferences
the nil connection handle and faults; once `Start` has assigned the
connection, `Stop` succeeds. -/
theorem C10_stop_before_start_faults :
    eventListenerStop newEventListener
      = Except.error "invalid memory address or nil pointer dereference"
    ∧ eventListenerStop (eventListenerAssignConn newEventListener)
      = Except.ok (eventListenerAssignConn newEventListener) := by
  exact ⟨rfl, rfl⟩

/-- Claim C7: for every datagram, the listener invokes the heartbeat
requester's `Start` for the sender address exactly when `KnownAndReset`
returned false, and then exactly once for that datagram; concretely, with
the spec's tracker, a second datagram from an address made known by the
first `Start` triggers no second `Start`. -/
theorem C7_heartbeat_start_iff_unknown (σ : Type) (r : HeartbeatRequester σ)
    (st : EventListenerState σ) (d : Datagram) :
    (listenerStep r st d).startCalls
      = st.startCalls
        ++ (if (r.knownAndReset st.requesterState d.addr).1 then [] else [d.addr])
    ∧ (listenerRun specRequester (initialListenerState ([] : List Addr))
        [{ addr := "10.0.0.1:5555", payload := [1] },
         { addr := "10.0.0.1:5555", payload := [2] }]).startCalls
      = ["10.0.0.1:5555"] := by
  constructor
  · cases hk : (r.knownAndReset st.requesterState d.addr).1 <;>
      simp [listenerStep, hk]
  · decide

/-- Claim C6: any positive number of `Disconnect` calls never faults,
executes the channel close exactly once, and leaves the sink in the same
state as a single call — every call after the first has no effect. -/
theorem C6_disconnect_idempotent (n : Nat) (h : 1 ≤ n) :
    disconnectN n initialDisconnectState
      = Except.ok { onceDone := true, channelClosed := true, closeCount := 1 }
    ∧ disconnectN n initialDisconnectState = disconnectN 1 initialDisconnectState := by
  obtain ⟨m, rfl⟩ : ∃ m, n = m + 1 := ⟨n - 1, (Nat.succ_pred_eq_of_pos h).symm⟩
  have key : disconnectN (m + 1) initialDisconnectState
      = Except.ok { onceDone := true, channelClosed := true, closeCount := 1 } := by
    simp only [disconnectN, disconnect, initialDisconnectState, closeChannel]
    simp [Except.map, Except.bind, disconnectN_done]
  exact ⟨key, by rw [key]; rfl⟩

/-- Claim C6 witness: three `Disconnect` calls behave as one. -/
theorem C6_disconnect_idempotent_witness :
    disconnectN 3 initialDisconnectState
      = Except.ok { onceDone := true, channelClosed := true, closeCount := 1 }
    ∧ disconnectN 3 initialDisconnectState = disconnectN 1 initialDisconnectState :=
  C6_disconnect_idempotent 3 (by decide)

/-- Claim C5: the Overflow Buffer never holds more than its capacity of
pending items, and a capacity-2 buffer fed 5 rapid items with a stalled
consumer delivers, once drained, exactly one notification of 3 dropped
plus the newest 2 original items. -/
theorem C5_overflow_buffer (cap : Nat) (hcap : 0 < cap) (xs : List Nat) :
    ((emptyBuffer Nat cap).feedAll xs).pending.length ≤ cap
    ∧ ((emptyBuffer Nat 2).feedAll [1, 2, 3, 4, 5]).drain
      = [BufferOut.droppedNotification 3, BufferOut.item 4, BufferOut.item 5] := by
  constructor
  · exact (truncBuffer_feedAll_length xs (emptyBuffer Nat cap) hcap (by simp [emptyBuffer])).1
  · decide

/-- Claim C5 witness: the theorem applied at capacity 2 and a concrete
burst of three items. -/
theorem C5_overflow_buffer_witness :
    ((emptyBuffer Nat 2).feedAll [9, 8, 7]).pending.length ≤ 2
    ∧ ((emptyBuffer Nat 2).feedAll [1, 2, 3, 4, 5]).drain
      = [BufferOut.droppedNotification 3, BufferOut.item 4, BufferOut.item 5] :=
  C5_overflow_buffer 2 (by decide) [9, 8, 7]

/-- Claim C2: the attempt counter starts at 0, gains one after every
failed connect (post-wait) and after every failed write, is unchanged by
a successful connect and by a non-log item, and resets to 0 exactly on a
successful write; after two connect failures and a success it is 2 on
entering the connected state and a successful write then resets it. -/
theorem C2_attempt_counter (s : SyslogSink) (backoff : Nat → Nat)
    (st st2 : RunState) (em : String) (e e2 : Envelope)
    (h1 : st.stopped = false) (h2 : st.connected = false)
    (h3 : st2.stopped = false) (h4 : st2.connected = true)
    (h5 : e.eventType = EventType.logMessage)
    (h6 : e2.eventType ≠ EventType.logMessage) :
    initialRunState.numberOfTries = 0
    ∧ (sinkStep s backoff st (SinkInput.connect (some em) false)).1.numberOfTries
      = st.numberOfTries + 1
    ∧ (sinkStep s backoff st (SinkInput.connect none false)).1.numberOfTries
      = st.numberOfTries
    ∧ (sinkStep s backoff st2 (SinkInput.select (SelectOutcome.item e false))).1.numberOfTries
      = st2.numberOfTries + 1
    ∧ (sinkStep s backoff st2 (SinkInput.select (SelectOutcome.item e true))).1.numberOfTries
      = 0
    ∧ (sinkStep s backoff st2 (SinkInput.select (SelectOutcome.item e2 true))).1.numberOfTries
      = st2.numberOfTries
    ∧ (runTrace s backoff initialRunState
        [SinkInput.connect (some em) false, SinkInput.connect (some em) false,
         SinkInput.connect none false]).1
      = { connected := true, numberOfTries := 2, stopped := false }
    ∧ (sinkStep s backoff { connected := true, numberOfTries := 2, stopped := false }
        (SinkInput.select (SelectOutcome.item e true))).1.numberOfTries = 0 := by
  refine ⟨rfl, ?_, ?_, ?_, ?_, ?_, ?_, ?_⟩ <;>
    simp [sinkStep, runTrace, initialRunState, h1, h2, h3, h4, h5, h6]

/-- Claim C2 witness: the theorem applied to concrete disconnected and
connected states, a concrete log envelope and a concrete counter
envelope. -/
theorem C2_attempt_counter_witness :
    initialRunState.numberOfTries = 0
    ∧ (sinkStep sampleSink (fun n => 2 ^ n)
        { connected := false, numberOfTries := 5, stopped := false }
        (SinkInput.connect (some "dial tcp: refused") false)).1.numberOfTries = 5 + 1
    ∧ (sinkStep sampleSink (fun n => 2 ^ n)
        { connected := false, numberOfTries := 5, stopped := false }
        (SinkInput.connect none false)).1.numberOfTries = 5
    ∧ (sinkStep sampleSink (fun n => 2 ^ n)
        { connected := true, numberOfTries := 5, stopped := false }
        (SinkInput.select (SelectOutcome.item sampleLogEnvelope false))).1.numberOfTries
      = 5 + 1
    ∧ (sinkStep sampleSink (fun n => 2 ^ n)
        { connected := true, numberOfTries := 5, stopped := false }
        (SinkInput.select (SelectOutcome.item sampleLogEnvelope true))).1.numberOfTries = 0
    ∧ (sinkStep sampleSink (fun n => 2 ^ n)
        { connected := true, numberOfTries := 5, stopped := false }
        (SinkInput.select (SelectOutcome.item sampleCounterEnvelope true))).1.numberOfTries
      = 5
    ∧ (runTrace sampleSink (fun n => 2 ^ n) initialRunState
        [SinkInput.connect (some "dial tcp: refused") false,
         SinkInput.connect (some "dial tcp: refused") false,
         SinkInput.connect none false]).1
      = { connected := true, numberOfTries := 2, stopped := false }
    ∧ (sinkStep sampleSink (fun n => 2 ^ n)
        { connected := true, numberOfTries := 2, stopped := false }
        (SinkInput.select (SelectOutcome.item sampleLogEnvelope true))).1.numberOfTries
      = 0 :=
  C2_attempt_counter sampleSink (fun n => 2 ^ n)
    { connected := false, numberOfTries := 5, stopped := false }
    { connected := true, numberOfTries := 5, stopped := false }
    "dial tcp: refused" sampleLogEnvelope sampleCounterEnvelope
    rfl rfl rfl rfl rfl (by decide)

/-- Claim C8: when a backoff wait after a failed connect is pending, the
disconnect signal firing first ends the wait and the run loop at once —
the loop returns without incrementing the counter or sleeping on. -/
theorem C8_backoff_interruptible (s : SyslogSink) (backoff : Nat → Nat)
    (st : RunState) (em : String)
    (h1 : st.stopped = false) (h2 : st.connected = false) :
    (sinkStep s backoff st (SinkInput.connect (some em) true)).1.stopped = true
    ∧ (sinkStep s backoff st (SinkInput.connect (some em) true)).1.numberOfTries
      = st.numberOfTries := by
  constructor <;> simp [sinkStep, h1, h2]

/-- Claim C8 witness: the theorem applied to a concrete disconnected
state. -/
theorem C8_backoff_interruptible_witness :
    (sinkStep sampleSink (fun n => 2 ^ n)
        { connected := false, numberOfTries := 4, stopped := false }
        (SinkInput.connect (some "dial tcp: refused") true)).1.stopped = true
    ∧ (sinkStep sampleSink (fun n => 2 ^ n)
        { connected := false, numberOfTries := 4, stopped := false }
        (SinkInput.connect (some "dial tcp: refused") true)).1.numberOfTries = 4 :=
  C8_backoff_interruptible sampleSink (fun n => 2 ^ n)
    { connected := false, numberOfTries := 4, stopped := false }
    "dial tcp: refused" rfl rfl

/-- Claim C1 counterexample: a failed `Write` of a log envelope in a
connected sink is a destination-operation failure handled via backoff
(the state becomes disconnected and the counter is bumped, and the
`Write` was indeed invoked), yet the step makes no error-callback
invocation — refuting that every write failure triggers the callback. -/
theorem C1_counterexample :
    ((sinkStep sampleSink (fun n => 2 ^ n)
        { connected := true, numberOfTries := 0, stopped := false }
        (SinkInput.select (SelectOutcome.item sampleLogEnvelope false))).2.filter
          SinkOutput.isErrorCallback = [])
    ∧ (sinkStep sampleSink (fun n => 2 ^ n)
        { connected := true, numberOfTries := 0, stopped := false }
        (SinkInput.select (SelectOutcome.item sampleLogEnvelope false))).1
      = { connected := false, numberOfTries := 1, stopped := false }
    ∧ ((sinkStep sampleSink (fun n => 2 ^ n)
        { connected := true, numberOfTries := 0, stopped := false }
        (SinkInput.select (SelectOutcome.item sampleLogEnvelope false))).2.filter
          SinkOutput.isWrite ≠ []) := by
  refine ⟨rfl, rfl, ?_⟩
  decide

/-- Claim C1 (amended): every failed connect invokes the error callback
with a descriptive message, the stream id and the destination id; a
failed write is handled internally via backoff (counter incremented,
state forced to disconnected) but invokes no error callback. -/
theorem C1_amended_error_reporting (s : SyslogSink) (backoff : Nat → Nat)
    (st st2 : RunState) (em : String) (e : Envelope) (disc : Bool)
    (h1 : st.stopped = false) (h2 : st.connected = false)
    (h3 : st2.stopped = false) (h4 : st2.connected = true)
    (h5 : e.eventType = EventType.logMessage) :
    (sinkStep s backoff st (SinkInput.connect (some em) disc)).2
      = [SinkOutput.errorCallback
          (connectErrorMsg s.drainUrl (backoff st.numberOfTries) em)
          s.appId s.drainUrl]
    ∧ (sinkStep s backoff st2 (SinkInput.select (SelectOutcome.item e false))).2.filter
        SinkOutput.isErrorCallback = []
    ∧ (sinkStep s backoff st2 (SinkInput.select (SelectOutcome.item e false))).1.connected
      = false
    ∧ (sinkStep s backoff st2 (SinkInput.select (SelectOutcome.item e false))).1.numberOfTries
      = st2.numberOfTries + 1 := by
  refine ⟨?_, ?_, ?_, ?_⟩ <;>
    cases disc <;>
    simp [sinkStep, h1, h2, h3, h4, h5, sendLogMessage, SinkOutput.isErrorCallback]

/-- Claim C1 witness: the amended theorem applied to concrete states, a
concrete connect error and a concrete log envelope. -/
theorem C1_amended_error_reporting_witness :
    (sinkStep sampleSink (fun n => 2 ^ n)
        { connected := false, numberOfTries := 0, stopped := false }
        (SinkInput.connect (some "dial tcp: refused") false)).2
      = [SinkOutput.errorCallback
          (connectErrorMsg sampleSink.drainUrl ((fun n => 2 ^ n) 0) "dial tcp: refused")
          sampleSink.appId sampleSink.drainUrl]
    ∧ (sinkStep sampleSink (fun n => 2 ^ n)
        { connected := true, numberOfTries := 0, stopped := false }
        (SinkInput.select (SelectOutcome.item sampleLogEnvelope false))).2.filter
        SinkOutput.isErrorCallback = []
    ∧ (sinkStep sampleSink (fun n => 2 ^ n)
        { connected := true, numberOfTries := 0, stopped := false }
        (SinkInput.select (SelectOutcome.item sampleLogEnvelope false))).1.connected = false
    ∧ (sinkStep sampleSink (fun n => 2 ^ n)
        { connected := true, numberOfTries := 0, stopped := false }
        (SinkInput.select (SelectOutcome.item sampleLogEnvelope false))).1.numberOfTries
      = 0 + 1 :=
  C1_amended_error_reporting sampleSink (fun n => 2 ^ n)
    { connected := false, numberOfTries := 0, stopped := false }
    { connected := true, numberOfTries := 0, stopped := false }
    "dial tcp: refused" sampleLogEnvelope false rfl rfl rfl rfl rfl

/-- A run-loop step whose input is not the arrival of a log-kind envelope
produces no `Write` invocation. -/
theorem sinkStep_no_write (s : SyslogSink) (backoff : Nat → Nat)
    (st : RunState) (i : SinkInput)
    (hi : ∀ e w, i = SinkInput.select (SelectOutcome.item e w) →
      e.eventType ≠ EventType.logMessage) :
    ∀ o ∈ (sinkStep s backoff st i).2, o.isWrite = false := by
  intro o ho
  cases i with
  | connect err disc =>
    cases err with
    | none =>
      by_cases hs : st.stopped = true <;> by_cases hc : st.connected = true <;>
        simp [sinkStep, hs, hc] at ho
    | some e =>
      by_cases hs : st.stopped = true
      · simp [sinkStep, hs] at ho
      · by_cases hc : st.connected = true
        · simp [sinkStep, hs, hc] at ho
        · by_cases hd : disc = true
          · simp [sinkStep, hs, hc, hd] at ho
            subst ho; rfl
          · simp [sinkStep, hs, hc, hd] at ho
            subst ho; rfl
  | select o2 =>
    cases o2 with
    | disconnect =>
      by_cases hs : st.stopped = true <;> by_cases hc : st.connected = true <;>
        simp [sinkStep, hs, hc] at ho
    | bufferClosed =>
      by_cases hs : st.stopped = true <;> by_cases hc : st.connected = true <;>
        simp [sinkStep, hs, hc] at ho
    | item e w =>
      have hlog : e.eventType ≠ EventType.logMessage := hi e w rfl
      by_cases hs : st.stopped = true <;> by_cases hc : st.connected = true <;>
        simp [sinkStep, hs, hc, hlog] at ho

/-- A whole trace in which no log-kind envelope ever arrives from the
buffer produces no `Write` invocation. -/
theorem runTrace_no_writes (s : SyslogSink) (backoff : Nat → Nat)
    (trace : List SinkInput) (st : RunState)
    (htr : ∀ e w, SinkInput.select (SelectOutcome.item e w) ∈ trace →
      e.eventType ≠ EventType.logMessage) :
    ∀ o ∈ (runTrace s backoff st trace).2, o.isWrite = false := by
  induction trace generalizing st with
  | nil => intro o ho; simp [runTrace] at ho
  | cons i rest ih =>
    intro o ho
    simp only [runTrace, List.mem_append] at ho
    rcases ho with ho | ho
    · exact sinkStep_no_write s backoff st i
        (fun e w hew => htr e w (hew ▸ List.mem_cons_self i rest)) o ho
    · exact ih (sinkStep s backoff st i).1
        (fun e w hmem => htr e w (List.mem_cons_of_mem i hmem)) o ho

/-- Claim C3: the filter stage forwards no non-log envelope into the
buffer — on an input of only non-log envelopes it forwards nothing — and
any trace whose buffer items all come from that (empty) filtered stream
or are non-log items (such as dropped-message notifications) leads to no
`Write` invocation at all. -/
theorem C3_only_logs_written (input : List Envelope) (s : SyslogSink)
    (backoff : Nat → Nat) (st : RunState) (trace : List SinkInput)
    (hin : ∀ e ∈ input, e.eventType ≠ EventType.logMessage)
    (htr : ∀ e w, SinkInput.select (SelectOutcome.item e w) ∈ trace →
      e ∈ filterEnvelopes input ∨ e.eventType ≠ EventType.logMessage) :
    filterEnvelopes input = []
    ∧ ∀ o ∈ (runTrace s backoff st trace).2, o.isWrite = false := by
  have hfil : filterEnvelopes input = [] := by
    simp only [filterEnvelopes, List.filter_eq_nil_iff]
    intro e he
    simpa using hin e he
  refine ⟨hfil, ?_⟩
  apply runTrace_no_writes
  intro e w hmem
  rcases htr e w hmem with hmem2 | hne
  · rw [hfil] at hmem2; simp at hmem2
  · exact hne

/-- Claim C3 witness: a concrete all-non-log input and a concrete trace
(connect success, then a counter envelope reaching the send stage, then
buffer closure) lead to an empty filtered stream and no writes. -/
theorem C3_only_logs_written_witness :
    filterEnvelopes [sampleCounterEnvelope] = []
    ∧ ∀ o ∈ (runTrace sampleSink (fun n => 2 ^ n) initialRunState
        [SinkInput.connect none false,
         SinkInput.select (SelectOutcome.item sampleCounterEnvelope true),
         SinkInput.select SelectOutcome.bufferClosed]).2, o.isWrite = false :=
  C3_only_logs_written [sampleCounterEnvelope] sampleSink (fun n => 2 ^ n)
    initialRunState
    [SinkInput.connect none false,
     SinkInput.select (SelectOutcome.item sampleCounterEnvelope true),
     SinkInput.select SelectOutcome.bufferClosed]
    (by decide)
    (by
      intro e w hmem
      simp only [List.mem_cons, List.not_mem_nil, or_false] at hmem
      rcases hmem with h | h | h
      · exact SinkInput.noConfusion h
      · injection h with h2
        injection h2 with h3 h4
        subst h3
        exact Or.inr (by decide)
      · injection h with h2
        exact SelectOutcome.noConfusion h2)

/-- One read-loop iteration publishes exactly the datagram's payload as a
right-sized copy and restores the scratch-buffer length invariant. -/
theorem listenerStep_published (r : HeartbeatRequester σ)
    (st : EventListenerState σ) (d : Datagram)
    (hbuf : st.readBuffer.length = maxUDPSize)
    (hd : d.payload.length ≤ maxUDPSize) :
    (listenerStep r st d).published = st.published ++ [d.payload]
    ∧ (listenerStep r st d).readBuffer.length = maxUDPSize := by
  have hrc : min d.payload.length st.readBuffer.length = d.payload.length := by
    rw [hbuf]; exact Nat.min_eq_left hd
  constructor
  · simp only [listenerStep, readFromInto, hrc]
    congr 1
    rw [List.take_append_of_le_length (by simp [Nat.min_eq_left hd])]
    simp
  · simp only [listenerStep, readFromInto, hrc, List.length_append,
      List.length_take, List.length_drop, hbuf]
    omega

/-- The read loop publishes the payloads of all arriving datagrams, in
order, appended to what was already published. -/
theorem listenerRun_published (r : HeartbeatRequester σ) (ds : List Datagram)
    (st : EventListenerState σ)
    (hbuf : st.readBuffer.length = maxUDPSize)
    (h : ∀ d ∈ ds, d.payload.length ≤ maxUDPSize) :
    (listenerRun r st ds).published = st.published ++ ds.map (fun d => d.payload) := by
  induction ds generalizing st with
  | nil => simp [listenerRun]
  | cons d ds ih =>
    have hstep := listenerStep_published r st d hbuf (h d (List.mem_cons_self d ds))
    simp only [listenerRun, List.map_cons]
    rw [ih (listenerStep r st d) hstep.2 (fun x hx => h x (List.mem_cons_of_mem d hx)),
      hstep.1]
    simp

/-- Claim C4: while the output queue has room, every datagram received by
the listener is published exactly once, byte-for-byte, in arrival order —
each published payload being the right-sized copy taken out of the scratch
buffer at read time, unaffected by later reads overwriting that buffer. -/
theorem C4_listener_republishes (σ : Type) (rs : σ) (r : HeartbeatRequester σ)
    (ds : List Datagram)
    (h : ∀ d ∈ ds, d.payload.length ≤ maxUDPSize) :
    (listenerRun r (initialListenerState rs) ds).published
      = ds.map (fun d => d.payload) := by
  rw [listenerRun_published r ds (initialListenerState rs) (by simp [initialListenerState]) h]
  rfl

/-- Claim C4 witness: two concrete datagrams of different sizes are
republished unmodified and in order. -/
theorem C4_listener_republishes_witness :
    (listenerRun specRequester (initialListenerState ([] : List Addr))
        [{ addr := "10.0.0.1:5555", payload := [1, 2, 3] },
         { addr := "10.0.0.2:6666", payload := [4, 5] }]).published
      = List.map (fun d => d.payload)
          [{ addr := "10.0.0.1:5555", payload := [1, 2, 3] },
           ({ addr := "10.0.0.2:6666", payload := [4, 5] } : Datagram)] :=
  C4_listener_republishes (List Addr) [] specRequester
    [{ addr := "10.0.0.1:5555", payload := [1, 2, 3] },
     { addr := "10.0.0.2:6666", payload := [4, 5] }]
    (by decide)
